import Mathlib

/-!
Verification of the station orchestration engine of an OCPP charge-point
simulator.  The engine (`ChargePoint`) is shallowly embedded from the
TypeScript source: state is an explicit record, each engine operation is a
pure function from a state to a new state paired with a trace of observable
events (MessageChannel calls, logger lines, subscriber-callback
invocations).  JavaScript interval timers are modelled by an allocation
counter `nextHandle`, a list `liveTimers` of not-yet-cleared interval
timers, and the engine's bookkeeping fields (`heartbeat`, the per-connector
interval map).  A `Date` is modelled by the ambient clock `now`.  The one
operation that can throw at runtime (`stopTransaction`, through a non-null
assertion) returns `Except`.
-/

namespace OcppSim

/-- Modelled from the spec: the connector/station status enumeration from
the protocol types module (not part of the provided sources). -/
inductive OCPPStatus
  | Available
  | Preparing
  | Charging
  | SuspendedEVSE
  | SuspendedEV
  | Finishing
  | Reserved
  | Unavailable
  | Faulted
deriving DecidableEq, Repr

/-- Modelled from the spec: the administrative availability flag from the
protocol types module (not part of the provided sources). -/
inductive OCPPAvailability
  | Operative
  | Inoperative
deriving DecidableEq, Repr

/-- The two telemetry formats of the engine (`MeterValueFormat`). -/
inductive MeterValueFormat
  | detailed
  | simple
deriving DecidableEq, Repr

/-- `AutoMeterValueSetting` from the store/config module. -/
structure AutoMeterValueSetting where
  enabled : Bool
  interval : Int
  value : Rat
deriving DecidableEq, Repr

/-- Modelled from the spec: the `Transaction` value object (its module is
not part of the provided sources); fields are exactly those the engine
populates and reads. -/
structure Transaction where
  id : Int
  connectorId : Nat
  tagId : String
  meterStart : Rat
  meterStop : Option Rat
  startTime : Nat
  stopTime : Option Nat
  meterSent : Bool
deriving DecidableEq, Repr

/-- Modelled from the spec: the `Connector` leaf (its module is not part of
the provided sources) is per-outlet state: status, availability, cumulative
meter reading, the optional owned transaction and the late-bound
server-assigned transaction id. -/
structure Connector where
  id : Nat
  status : OCPPStatus := OCPPStatus.Unavailable
  availability : OCPPAvailability := OCPPAvailability.Operative
  meterValue : Rat := 0
  transaction : Option Transaction := none
  transactionId : Option Int := none
deriving DecidableEq, Repr

/-- The kind of a JavaScript interval timer owned by the engine. -/
inductive TimerKind
  | heartbeat
  | autoMeter (connectorId : Nat)
deriving DecidableEq, Repr

/-- A live (not yet cleared) interval timer: its opaque handle, its kind,
its period in milliseconds and, for auto-telemetry, the per-tick meter
increment. -/
structure Timer where
  handle : Nat
  kind : TimerKind
  periodMs : Int
  step : Rat := 0
deriving DecidableEq, Repr

/-- The unit of a sampled telemetry value. -/
inductive SVUnit
  | Wh
  | kWh
  | W
  | kW
  | A
  | V
  | Percent
  | Celcius
deriving DecidableEq, Repr

/-- The measurand of a sampled telemetry value (those the generator emits). -/
inductive Measurand
  | Voltage
  | CurrentImport
  | PowerActiveImport
  | SoC
  | PowerOffered
  | EnergyActiveImportRegister
  | Temperature
  | RPM
deriving DecidableEq, Repr

/-- Electrical phase of a sampled value. -/
inductive Phase
  | L1
  | L2
  | L3
deriving DecidableEq, Repr

/-- Sampling location of a sampled value. -/
inductive SVLocation
  | Outlet
  | EV
deriving DecidableEq, Repr

/-- Value format of a sampled value. -/
inductive SVFormat
  | Raw
  | SignedData
deriving DecidableEq, Repr

/-- One sampled reading of a telemetry snapshot; numeric string values of
the source are embedded as exact rationals. -/
structure SampledValue where
  value : Rat
  measurand : Measurand
  unit : Option SVUnit := none
  phase : Option Phase := none
  location : Option SVLocation := none
  format : Option SVFormat := none
deriving DecidableEq, Repr

/-- A telemetry snapshot: a generation timestamp and the sampled readings. -/
structure MeterValueSnapshot where
  timestamp : Nat
  sampledValue : List SampledValue
deriving DecidableEq, Repr

/-- Observable events of one engine operation: outbound MessageChannel
calls, logger lines, and synchronous subscriber-callback invocations.
`connectorStatusWrite` records each assignment to a connector's status
field. -/
inductive Event
  | bootNotificationSent
  | startTxSent (t : Transaction) (connectorId : Nat)
  | stopTxSent (t : Transaction) (connectorId : Nat)
  | heartbeatSent
  | statusNotificationSent (connectorId : Nat) (status : OCPPStatus)
  | meterValueSent (txId : Option Int) (connectorId : Nat) (snapshot : MeterValueSnapshot)
  | logInfo (msg : String)
  | logError (msg : String)
  | stationStatusCallback (status : OCPPStatus)
  | stationErrorCallback (err : String)
  | availabilityCallback (connectorId : Nat) (a : OCPPAvailability)
  | connectorStatusWrite (connectorId : Nat) (status : OCPPStatus)
  | wsDisconnect
deriving DecidableEq, Repr

/-- Is the event an invocation of the station-wide status subscriber? -/
def Event.isStationStatusCallback : Event → Bool
  | Event.stationStatusCallback _ => true
  | _ => false

/-- Is the event an invocation of a per-connector availability subscriber? -/
def Event.isAvailabilityCallback : Event → Bool
  | Event.availabilityCallback _ _ => true
  | _ => false

/-- The `ChargePoint` engine state.  `autoMeterValueIntervals` is the
per-connector interval-handle map (`Map.get`/`set`/`delete` only, so it is
embedded as a function); `liveTimers` are the intervals that were scheduled
and never cleared; `heartbeat` is the `_heartbeat` handle field;
`hasStatusChangeCallback` records whether the station-wide status subscriber
slot is non-null; `availabilityCallbackIds` are the connector ids with a
registered availability subscriber. -/
structure ChargePoint where
  id : String
  connectors : List Connector
  autoMeterValueSetting : Option AutoMeterValueSetting
  autoMeterValueIntervals : Nat → Option Nat
  meterValueFormat : MeterValueFormat := MeterValueFormat.detailed
  status : OCPPStatus := OCPPStatus.Unavailable
  error : String := ""
  heartbeat : Option Nat := none
  hasStatusChangeCallback : Bool := false
  availabilityCallbackIds : List Nat := []
  liveTimers : List Timer := []
  nextHandle : Nat := 1
  now : Nat := 0

/-- The constructor: connectors `1..N`, all fields at their declared
initial values. -/
def mkChargePoint (id : String) (connectorCount : Nat)
    (setting : Option AutoMeterValueSetting) : ChargePoint :=
  { id := id
    connectors := (List.range connectorCount).map (fun i => { id := i + 1 })
    autoMeterValueSetting := setting
    autoMeterValueIntervals := fun _ => none }

/-- `getConnector`: `Map.get` on the connector map. -/
def ChargePoint.getConnector (cp : ChargePoint) (connectorId : Nat) : Option Connector :=
  cp.connectors.find? (fun c => c.id == connectorId)

/-- Update the connector with the given id in place (the JS code mutates
the `Connector` object held by the map). -/
def modifyConn (cs : List Connector) (i : Nat) (f : Connector → Connector) : List Connector :=
  cs.map (fun c => if c.id = i then f c else c)

/-- The field assignment `connector.transaction = t`. -/
def setTransactionFn (t : Transaction) : Connector → Connector :=
  fun c => { c with transaction := some t }

/-- The field assignment `connector.status = st`. -/
def setStatusFn (st : OCPPStatus) : Connector → Connector :=
  fun c => { c with status := st }

/-- The field assignment `connector.availability = a`. -/
def setAvailabilityFn (a : OCPPAvailability) : Connector → Connector :=
  fun c => { c with availability := a }

/-- The mutation `transaction.meterSent = false` applied to a connector's
attached transaction, when present. -/
def clearMeterSent : Connector → Connector :=
  fun c => { c with transaction :=
    (c.transaction.map (fun t => { t with meterSent := false })) }

/-- The two mutations `transaction.stopTime = new Date()` and
`transaction.meterStop = connector.meterValue` of `stopTransaction`. -/
def stoppedTransaction (tx : Transaction) (now : Nat) (meter : Rat) : Transaction :=
  { tx with stopTime := some now, meterStop := some meter }

/-- One assignment `connector.status = newStatus` to the connector with the
given id. -/
def writeStatus (st : OCPPStatus) (i : Nat) (cs : List Connector) : List Connector :=
  modifyConn cs i (setStatusFn st)

/-- The station status setter (`set status`): assigns the backing field and
synchronously invokes the station-wide status subscriber when one is
registered. -/
def ChargePoint.setStatus (cp : ChargePoint) (st : OCPPStatus) : ChargePoint × List Event :=
  ({ cp with status := st },
   if cp.hasStatusChangeCallback then [Event.stationStatusCallback st] else [])

/-- The station error setter (`set error`): assigns the field and invokes
the error callback (a no-op function by default, always present). -/
def ChargePoint.setError (cp : ChargePoint) (err : String) : ChargePoint × List Event :=
  ({ cp with error := err }, [Event.stationErrorCallback err])

/-- `updateConnectorStatus`: sets the connector's status and sends one
status notification; logs and skips when the connector is missing. -/
def ChargePoint.updateConnectorStatus (cp : ChargePoint) (connectorId : Nat)
    (newStatus : OCPPStatus) : ChargePoint × List Event :=
  match cp.getConnector connectorId with
  | some _ =>
      ({ cp with connectors := writeStatus newStatus connectorId cp.connectors },
       [Event.connectorStatusWrite connectorId newStatus,
        Event.statusNotificationSent connectorId newStatus])
  | none => (cp, [Event.logError ("Connector " ++ toString connectorId ++ " not found")])

/-- `updateAllConnectorsStatus`, embedded faithfully with its nested
iteration: for each connector the outer pass writes that connector's
status, then the inner pass (over a fresh snapshot of the same connector
objects) writes every connector's status again, then one status
notification is sent for the outer connector. -/
def ChargePoint.updateAllConnectorsStatus (cp : ChargePoint)
    (newStatus : OCPPStatus) : ChargePoint × List Event :=
  ({ cp with connectors :=
      ((cp.connectors.map (fun c => c.id)).foldl
        (fun cs i =>
          (cp.connectors.map (fun c => c.id)).foldl
            (fun cs2 j => writeStatus newStatus j cs2)
            (writeStatus newStatus i cs))
        cp.connectors) },
   (cp.connectors.map (fun c => c.id)).foldl
     (fun acc i =>
       acc ++
         (Event.connectorStatusWrite i newStatus ::
           ((cp.connectors.map (fun c => c.id)).map
              (fun j => Event.connectorStatusWrite j newStatus) ++
            [Event.statusNotificationSent i newStatus])))
     [])

/-- `startAutoMeterValue`: schedules a fresh interval timer for the
connector and records its handle in the per-connector map.  The prior map
entry, if any, is overwritten without `clearInterval`. -/
def ChargePoint.startAutoMeterValue (cp : ChargePoint) (connectorId : Nat)
    (intervalSec : Int) (value : Rat) : ChargePoint × List Event :=
  ({ cp with
      liveTimers := cp.liveTimers ++
        [{ handle := cp.nextHandle, kind := TimerKind.autoMeter connectorId,
           periodMs := intervalSec * 1000, step := value }]
      autoMeterValueIntervals :=
        fun j => if j = connectorId then some cp.nextHandle else cp.autoMeterValueIntervals j
      nextHandle := cp.nextHandle + 1 },
   [])

/-- `stopAutoMeterValue`: looks the handle up, and when it is truthy clears
the interval and deletes the map entry; safe to call when none is live. -/
def ChargePoint.stopAutoMeterValue (cp : ChargePoint) (connectorId : Nat) :
    ChargePoint × List Event :=
  match cp.autoMeterValueIntervals connectorId with
  | some h =>
      if h ≠ 0 then
        ({ cp with
            liveTimers := cp.liveTimers.filter (fun t => t.handle != h)
            autoMeterValueIntervals :=
              fun j => if j = connectorId then none else cp.autoMeterValueIntervals j },
         [])
      else (cp, [])
  | none => (cp, [])

/-- `startHeartbeat`: logs, clears the prior heartbeat interval when its
handle is truthy, then schedules a fresh one and stores its handle. -/
def ChargePoint.startHeartbeat (cp : ChargePoint) (period : Int) : ChargePoint × List Event :=
  let cp1 : ChargePoint :=
    match cp.heartbeat with
    | some h =>
        if h ≠ 0 then { cp with liveTimers := cp.liveTimers.filter (fun t => t.handle != h) }
        else cp
    | none => cp
  ({ cp1 with
      heartbeat := some cp1.nextHandle
      liveTimers := cp1.liveTimers ++
        [{ handle := cp1.nextHandle, kind := TimerKind.heartbeat,
           periodMs := period * 1000 }]
      nextHandle := cp1.nextHandle + 1 },
   [Event.logInfo ("Setting heartbeat period to " ++ toString period ++ "s")])

/-- `stopHeartbeat`: logs and clears the heartbeat interval when its handle
is truthy; the handle field itself is not reset. -/
def ChargePoint.stopHeartbeat (cp : ChargePoint) : ChargePoint × List Event :=
  (match cp.heartbeat with
   | some h =>
       if h ≠ 0 then { cp with liveTimers := cp.liveTimers.filter (fun t => t.handle != h) }
       else cp
   | none => cp,
   [Event.logInfo "Stopping heartbeat"])

/-- The `Transaction` literal constructed by `startTransaction`. -/
def newTransaction (tagId : String) (connectorId : Nat) (now : Nat) : Transaction :=
  { id := 0
    connectorId := connectorId
    tagId := tagId
    meterStart := 0
    meterStop := none
    startTime := now
    stopTime := none
    meterSent := false }

/-- `startTransaction`: when the connector exists, attaches a fresh
transaction, forwards it through MessageChannel, transitions the connector
to `Preparing`, and, when the auto-meter-value setting is present with both
interval and value non-zero, starts that connector's auto-telemetry timer;
otherwise logs an error. -/
def ChargePoint.startTransaction (cp : ChargePoint) (tagId : String)
    (connectorId : Nat) : ChargePoint × List Event :=
  match cp.getConnector connectorId with
  | some _ =>
      let transaction := newTransaction tagId connectorId cp.now
      let cp1 : ChargePoint :=
        { cp with connectors :=
            (modifyConn cp.connectors connectorId (setTransactionFn transaction)) }
      let r2 := cp1.updateConnectorStatus connectorId OCPPStatus.Preparing
      match cp.autoMeterValueSetting with
      | some s =>
          if s.interval ≠ 0 ∧ s.value ≠ 0 then
            let r3 := r2.1.startAutoMeterValue connectorId s.interval s.value
            (r3.1, Event.startTxSent transaction connectorId :: (r2.2 ++ r3.2))
          else (r2.1, Event.startTxSent transaction connectorId :: r2.2)
      | none => (r2.1, Event.startTxSent transaction connectorId :: r2.2)
  | none => (cp, [Event.logError ("Connector " ++ toString connectorId ++ " not found")])

/-- `cleanTransaction` (id entry point): resets `meterSent` when a
transaction is present, transitions the connector to `Finishing`, and, when
the auto-meter-value setting is non-null, stops the connector's
auto-telemetry timer. -/
def ChargePoint.cleanTransaction (cp : ChargePoint) (connectorId : Nat) :
    ChargePoint × List Event :=
  let cp1 : ChargePoint :=
    match cp.getConnector connectorId with
    | some conn =>
        match conn.transaction with
        | some _ =>
            { cp with connectors :=
                (modifyConn cp.connectors connectorId clearMeterSent) }
        | none => cp
    | none => cp
  let r2 := cp1.updateConnectorStatus connectorId OCPPStatus.Finishing
  if r2.1.autoMeterValueSetting.isSome then
    let r3 := r2.1.stopAutoMeterValue connectorId
    (r3.1, r2.2 ++ r3.2)
  else (r2.1, r2.2)

/-- `stopTransaction` (id entry point): when the connector exists the code
dereferences `connector.transaction!`; with no attached transaction this
throws a `TypeError` (embedded as `Except.error`).  Otherwise it stamps
`stopTime`, sets `meterStop` to the connector's meter value, forwards the
stop through MessageChannel, runs `cleanTransaction`, and finally (also on
a missing connector) forces the connector status to `Available`. -/
def ChargePoint.stopTransaction (cp : ChargePoint) (connectorId : Nat) :
    Except String (ChargePoint × List Event) :=
  match cp.getConnector connectorId with
  | some conn =>
      match conn.transaction with
      | none => Except.error "TypeError: Cannot set properties of null"
      | some tx =>
          let tx1 : Transaction := stoppedTransaction tx cp.now conn.meterValue
          let cp1 : ChargePoint :=
            { cp with connectors :=
                (modifyConn cp.connectors connectorId (setTransactionFn tx1)) }
          let r2 := cp1.cleanTransaction connectorId
          let r3 := r2.1.updateConnectorStatus connectorId OCPPStatus.Available
          Except.ok (r3.1, Event.stopTxSent tx1 connectorId :: (r2.2 ++ r3.2))
  | none =>
      let r := cp.updateConnectorStatus connectorId OCPPStatus.Available
      Except.ok (r.1,
        Event.logError ("Connector for id " ++ toString connectorId ++ " not found") :: r.2)

/-- `updateConnectorAvailability`: fails (returns `false`, logs) when the
connector is missing; otherwise records the availability, forces the status
(`Inoperative` → `Unavailable`, `Operative` → `Available`), invokes the
registered availability subscriber when present, and returns `true`. -/
def ChargePoint.updateConnectorAvailability (cp : ChargePoint) (connectorId : Nat)
    (newAvailability : OCPPAvailability) : Bool × ChargePoint × List Event :=
  match cp.getConnector connectorId with
  | none => (false, cp, [Event.logError ("Connector " ++ toString connectorId ++ " not found")])
  | some _ =>
      let cp1 : ChargePoint :=
        { cp with connectors :=
            (modifyConn cp.connectors connectorId (setAvailabilityFn newAvailability)) }
      let r2 :=
        match newAvailability with
        | OCPPAvailability.Inoperative =>
            cp1.updateConnectorStatus connectorId OCPPStatus.Unavailable
        | OCPPAvailability.Operative =>
            cp1.updateConnectorStatus connectorId OCPPStatus.Available
      let ev3 :=
        if connectorId ∈ cp.availabilityCallbackIds then
          [Event.availabilityCallback connectorId newAvailability]
        else []
      (true, r2.1, r2.2 ++ ev3)

/-- `setTransactionID`: stores the late-bound server-assigned id on the
connector's transaction-id slot; logs when the connector is missing. -/
def ChargePoint.setTransactionID (cp : ChargePoint) (connectorId : Nat)
    (transactionId : Int) : ChargePoint × List Event :=
  match cp.getConnector connectorId with
  | some _ =>
      ({ cp with connectors :=
          (modifyConn cp.connectors connectorId
            (fun c => { c with transactionId := some transactionId })) }, [])
  | none => (cp, [Event.logError ("Connector " ++ toString connectorId ++ " not found")])

/-- `boot`: sends the boot payload, sets station and all connectors to
`Available`, clears the error. -/
def ChargePoint.boot (cp : ChargePoint) : ChargePoint × List Event :=
  let r1 := cp.setStatus OCPPStatus.Available
  let r2 := r1.1.updateAllConnectorsStatus OCPPStatus.Available
  let r3 := r2.1.setError ""
  (r3.1, Event.bootNotificationSent :: (r1.2 ++ r2.2 ++ r3.2))

/-- The close callback installed by `connect`: transitions station and all
connectors to `Unavailable`, logs the close reason, and surfaces it as the
current error unless the close code is the sentinel 1005. -/
def ChargePoint.closeHandler (cp : ChargePoint) (code : Nat) (reason : String) :
    ChargePoint × List Event :=
  let r1 := cp.setStatus OCPPStatus.Unavailable
  let r2 := r1.1.updateAllConnectorsStatus OCPPStatus.Unavailable
  let msg := "WebSocket closed code: " ++ toString code ++ " reason: " ++ reason
  if code ≠ 1005 then
    let r3 := r2.1.setError msg
    (r3.1, r1.2 ++ r2.2 ++ [Event.logError msg] ++ r3.2)
  else
    (r2.1, r1.2 ++ r2.2 ++ [Event.logError msg])

/-- `disconnect`: logs, assigns the `_status` backing field directly
(bypassing the status setter, so no subscriber is invoked) and asks the
transport to close. -/
def ChargePoint.disconnect (cp : ChargePoint) : ChargePoint × List Event :=
  ({ cp with status := OCPPStatus.Unavailable },
   [Event.logInfo "Disconnecting from WebSocket", Event.wsDisconnect])

/-- `setMeterValueFormat`: the runtime format toggle. -/
def ChargePoint.setMeterValueFormat (cp : ChargePoint) (format : MeterValueFormat) :
    ChargePoint :=
  { cp with meterValueFormat := format }

/-- `getMeterValueFormat`. -/
def ChargePoint.getMeterValueFormat (cp : ChargePoint) : MeterValueFormat :=
  cp.meterValueFormat

/-- The telemetry generator, as a pure function of the format, the clock
and the meter value: the `simple` branch and the `detailed` branch of
`generateDetailedMeterValues`, with every numeric string embedded as an
exact rational. -/
def generateMeterValues (format : MeterValueFormat) (now : Nat) (meterValue : Rat) :
    MeterValueSnapshot :=
  if format = MeterValueFormat.simple then
    { timestamp := now
      sampledValue :=
        [{ value := meterValue / 1000, measurand := Measurand.EnergyActiveImportRegister,
           unit := some SVUnit.kWh, format := some SVFormat.Raw },
         { value := 264 / 10, measurand := Measurand.PowerActiveImport,
           unit := some SVUnit.kW, format := some SVFormat.Raw },
         { value := 66, measurand := Measurand.SoC,
           unit := some SVUnit.Percent, format := some SVFormat.Raw },
         { value := 45, measurand := Measurand.Temperature,
           unit := some SVUnit.Celcius, format := some SVFormat.Raw },
         { value := 7989 / 100, measurand := Measurand.CurrentImport,
           unit := some SVUnit.A, format := some SVFormat.Raw },
         { value := 0, measurand := Measurand.RPM, format := some SVFormat.Raw },
         { value := 3301 / 10, measurand := Measurand.Voltage,
           unit := some SVUnit.V, format := some SVFormat.Raw }] }
  else
    { timestamp := now
      sampledValue :=
        [{ value := 2367 / 10, measurand := Measurand.Voltage, unit := some SVUnit.V,
           phase := some Phase.L1, location := some SVLocation.Outlet },
         { value := 2356 / 10, measurand := Measurand.Voltage, unit := some SVUnit.V,
           phase := some Phase.L2, location := some SVLocation.Outlet },
         { value := 2367 / 10, measurand := Measurand.Voltage, unit := some SVUnit.V,
           phase := some Phase.L3, location := some SVLocation.Outlet },
         { value := 0, measurand := Measurand.CurrentImport, unit := some SVUnit.A,
           phase := some Phase.L1, location := some SVLocation.Outlet },
         { value := 0, measurand := Measurand.CurrentImport, unit := some SVUnit.A,
           phase := some Phase.L2, location := some SVLocation.Outlet },
         { value := 0, measurand := Measurand.CurrentImport, unit := some SVUnit.A,
           phase := some Phase.L3, location := some SVLocation.Outlet },
         { value := 2000, measurand := Measurand.PowerActiveImport,
           unit := some SVUnit.W, location := some SVLocation.Outlet },
         { value := 10, measurand := Measurand.SoC,
           unit := some SVUnit.Percent, location := some SVLocation.EV },
         { value := 22687, measurand := Measurand.PowerOffered,
           unit := some SVUnit.W, location := some SVLocation.Outlet },
         { value := meterValue, measurand := Measurand.EnergyActiveImportRegister,
           unit := some SVUnit.Wh, location := some SVLocation.Outlet }] }

/-- `generateDetailedMeterValues` as the engine method: reads the current
format field. -/
def ChargePoint.generateDetailedMeterValues (cp : ChargePoint) (meterValue : Rat) :
    MeterValueSnapshot :=
  generateMeterValues cp.meterValueFormat cp.now meterValue

/-- The nine fixed (meter-value independent) sample readings of the
detailed format. -/
def detailedFixedSamples : List SampledValue :=
  [{ value := 2367 / 10, measurand := Measurand.Voltage, unit := some SVUnit.V,
     phase := some Phase.L1, location := some SVLocation.Outlet },
   { value := 2356 / 10, measurand := Measurand.Voltage, unit := some SVUnit.V,
     phase := some Phase.L2, location := some SVLocation.Outlet },
   { value := 2367 / 10, measurand := Measurand.Voltage, unit := some SVUnit.V,
     phase := some Phase.L3, location := some SVLocation.Outlet },
   { value := 0, measurand := Measurand.CurrentImport, unit := some SVUnit.A,
     phase := some Phase.L1, location := some SVLocation.Outlet },
   { value := 0, measurand := Measurand.CurrentImport, unit := some SVUnit.A,
     phase := some Phase.L2, location := some SVLocation.Outlet },
   { value := 0, measurand := Measurand.CurrentImport, unit := some SVUnit.A,
     phase := some Phase.L3, location := some SVLocation.Outlet },
   { value := 2000, measurand := Measurand.PowerActiveImport,
     unit := some SVUnit.W, location := some SVLocation.Outlet },
   { value := 10, measurand := Measurand.SoC,
     unit := some SVUnit.Percent, location := some SVLocation.EV },
   { value := 22687, measurand := Measurand.PowerOffered,
     unit := some SVUnit.W, location := some SVLocation.Outlet }]

/-- The condition under which `startTransaction` starts auto-telemetry: the
setting is present with both interval and value non-zero. -/
def autoCondition : Option AutoMeterValueSetting → Prop
  | some s => s.interval ≠ 0 ∧ s.value ≠ 0
  | none => False

instance (o : Option AutoMeterValueSetting) : Decidable (autoCondition o) :=
  match o with
  | some s => inferInstanceAs (Decidable (s.interval ≠ 0 ∧ s.value ≠ 0))
  | none => inferInstanceAs (Decidable False)

/-- Did a fallible engine operation complete without throwing? -/
def exceptIsOk : Except String (ChargePoint × List Event) → Bool
  | Except.ok _ => true
  | Except.error _ => false

/-- The resulting state of a fallible engine operation, when it completed. -/
def exceptState : Except String (ChargePoint × List Event) → Option ChargePoint
  | Except.ok r => some r.1
  | Except.error _ => none

/-- The event trace of a fallible engine operation, when it completed. -/
def exceptEvents : Except String (ChargePoint × List Event) → Option (List Event)
  | Except.ok r => some r.2
  | Except.error _ => none


/-! ### Concrete stations used by the claim-level evaluations -/

/-- A one-connector station with no auto-meter-value setting. -/
def cpC1base : ChargePoint := mkChargePoint "CP1" 1 none

/-- `startAutoMeterValue(1, 5, 10)` called twice in a row. -/
def cpC1twice : ChargePoint :=
  ((cpC1base.startAutoMeterValue 1 5 10).1.startAutoMeterValue 1 5 10).1

/-- `startHeartbeat` called twice in a row. -/
def cpC1heart : ChargePoint :=
  ((cpC1base.startHeartbeat 30).1.startHeartbeat 60).1

/-- A one-connector station whose connector 1 holds an active transaction
and a live auto-telemetry timer, with `autoMeterValueSetting` null. -/
def cpC3state : ChargePoint :=
  (((mkChargePoint "CP3" 1 none).startTransaction "TAG" 1).1.startAutoMeterValue 1 5 10).1

/-- A two-connector station. -/
def cpC5pair : ChargePoint := mkChargePoint "CP5" 2 none

/-- A one-connector station with a prior error string. -/
def cpW6state : ChargePoint := { mkChargePoint "CPW6" 1 none with error := "prior" }

/-- A one-connector station with a registered station-wide status
subscriber, currently Available. -/
def cpC7state : ChargePoint :=
  { mkChargePoint "CP7" 1 none with
    hasStatusChangeCallback := true
    status := OCPPStatus.Available }

/-- A one-connector station with a registered station-wide status
subscriber. -/
def cpW7state : ChargePoint :=
  { mkChargePoint "CPW7" 1 none with hasStatusChangeCallback := true }

/-- A one-connector station with an availability subscriber on connector 1. -/
def cpW8state : ChargePoint :=
  { mkChargePoint "CPW8" 1 none with availabilityCallbackIds := [1] }

/-- A station configured for auto-telemetry, after `startTransaction`. -/
def cpW3state : ChargePoint :=
  ((mkChargePoint "CPW3" 1 (some { enabled := true, interval := 5, value := 10 })).startTransaction
    "T" 1).1

/-- Connector 1 of `cpW3state`. -/
def connW3 : Connector :=
  { id := 1
    status := OCPPStatus.Preparing
    transaction := some (newTransaction "T" 1 0) }

/-- A station with no auto-meter-value setting, after `startTransaction`. -/
def cpW10state : ChargePoint :=
  ((mkChargePoint "CPW10" 1 none).startTransaction "T" 1).1

/-- Connector 1 of `cpW10state`. -/
def connW10 : Connector :=
  { id := 1
    status := OCPPStatus.Preparing
    transaction := some (newTransaction "T" 1 0) }

/-- A station configured for auto-telemetry. -/
def cpW4state : ChargePoint :=
  mkChargePoint "CPW4" 1 (some { enabled := true, interval := 5, value := 10 })

/-! ### Helper lemmas about connector lookup and the global status update -/

lemma getConnector_some_id {cp : ChargePoint} {k : Nat} {conn : Connector}
    (h : cp.getConnector k = some conn) : conn.id = k := by
  unfold ChargePoint.getConnector at h
  have h2 := List.find?_some h
  simpa using h2

lemma find?_modifyConn (cs : List Connector) (k : Nat) (f : Connector → Connector)
    (hf : ∀ c, (f c).id = c.id) :
    (modifyConn cs k f).find? (fun c => c.id == k) =
      (cs.find? (fun c => c.id == k)).map f := by
  induction cs with
  | nil => rfl
  | cons c cs ih =>
    by_cases h : c.id = k
    · simp [modifyConn, List.find?_cons, h, hf c]
    · simp only [modifyConn, List.map_cons] at *
      rw [if_neg h]
      rw [List.find?_cons_of_neg _ (by simp [h]), List.find?_cons_of_neg _ (by simp [h])]
      exact ih

lemma foldWrite_eq (st : OCPPStatus) (l : List Nat) :
    ∀ cs : List Connector,
      l.foldl (fun cs2 j => writeStatus st j cs2) cs =
        cs.map (fun c => if c.id ∈ l then { c with status := st } else c) := by
  induction l with
  | nil => intro cs; simp
  | cons j l ih =>
    intro cs
    rw [List.foldl_cons, ih]
    unfold writeStatus modifyConn setStatusFn
    rw [List.map_map]
    apply List.map_congr_left
    intro c _
    by_cases h1 : c.id = j
    · by_cases h2 : c.id ∈ l <;> simp [Function.comp, h1, h2]
    · by_cases h2 : c.id ∈ l <;> simp [Function.comp, h1, h2]

lemma mem_foldWrite_status (st : OCPPStatus) (l : List Nat) (cs : List Connector)
    (hcov : ∀ c ∈ cs, c.id ∈ l) :
    ∀ c' ∈ l.foldl (fun cs2 j => writeStatus st j cs2) cs, c'.status = st := by
  intro c' hc'
  rw [foldWrite_eq] at hc'
  obtain ⟨c, hc, rfl⟩ := List.mem_map.mp hc'
  simp [hcov c hc]

lemma cov_writeStatus {l : List Nat} (st : OCPPStatus) (i : Nat) {cs : List Connector}
    (hcov : ∀ c ∈ cs, c.id ∈ l) :
    ∀ c' ∈ writeStatus st i cs, c'.id ∈ l := by
  intro c' h
  obtain ⟨c, hc, rfl⟩ := List.mem_map.mp h
  by_cases hci : c.id = i <;> simpa [hci, setStatusFn] using hcov c hc

lemma cov_foldWrite {l L : List Nat} (st : OCPPStatus) {cs : List Connector}
    (hcov : ∀ c ∈ cs, c.id ∈ L) :
    ∀ c' ∈ l.foldl (fun cs2 j => writeStatus st j cs2) cs, c'.id ∈ L := by
  intro c' h
  rw [foldWrite_eq] at h
  obtain ⟨c, hc, rfl⟩ := List.mem_map.mp h
  by_cases h2 : c.id ∈ l <;> simpa [h2] using hcov c hc

lemma outer_foldWrite (st : OCPPStatus) (l : List Nat) :
    ∀ (l' : List Nat) (cs : List Connector), (∀ c ∈ cs, c.id ∈ l) →
      (∀ c' ∈ l'.foldl
          (fun cs2 i =>
            l.foldl (fun cs3 j => writeStatus st j cs3) (writeStatus st i cs2)) cs,
        c'.id ∈ l)
      ∧ (l' ≠ [] →
         ∀ c' ∈ l'.foldl
            (fun cs2 i =>
              l.foldl (fun cs3 j => writeStatus st j cs3) (writeStatus st i cs2)) cs,
          c'.status = st) := by
  intro l'
  induction l' with
  | nil =>
    intro cs h
    exact ⟨h, fun hne => absurd rfl hne⟩
  | cons i l' ih =>
    intro cs hcov
    have hcov1 : ∀ c ∈ writeStatus st i cs, c.id ∈ l := cov_writeStatus st i hcov
    have hcov2 : ∀ c' ∈ l.foldl (fun cs3 j => writeStatus st j cs3) (writeStatus st i cs),
        c'.id ∈ l := cov_foldWrite st hcov1
    have hst2 : ∀ c' ∈ l.foldl (fun cs3 j => writeStatus st j cs3) (writeStatus st i cs),
        c'.status = st := mem_foldWrite_status st l _ hcov1
    rw [List.foldl_cons]
    rcases ih _ hcov2 with ⟨ihcov, ihst⟩
    refine ⟨ihcov, fun _ => ?_⟩
    cases l' with
    | nil => simpa using hst2
    | cons a l2 => exact ihst (by simp)

lemma updateAll_all_status (cp : ChargePoint) (st : OCPPStatus) :
    ∀ c ∈ (cp.updateAllConnectorsStatus st).1.connectors, c.status = st := by
  intro c hc
  unfold ChargePoint.updateAllConnectorsStatus at hc
  simp only at hc
  cases hcs : cp.connectors with
  | nil =>
    rw [hcs] at hc
    simp at hc
  | cons c0 cs0 =>
    have hcov : ∀ x ∈ cp.connectors, x.id ∈ cp.connectors.map (fun c => c.id) :=
      fun x hx => List.mem_map_of_mem _ hx
    have hne : cp.connectors.map (fun c => c.id) ≠ [] := by simp [hcs]
    exact (outer_foldWrite st _ _ _ hcov).2 hne c hc

lemma setStatus_fst (cp : ChargePoint) (st : OCPPStatus) :
    (cp.setStatus st).1 = { cp with status := st } := rfl

lemma setError_fst (cp : ChargePoint) (e : String) :
    (cp.setError e).1 = { cp with error := e } := rfl

lemma updateAll_fst_status (cp : ChargePoint) (st : OCPPStatus) :
    (cp.updateAllConnectorsStatus st).1.status = cp.status := rfl

lemma updateAll_fst_error (cp : ChargePoint) (st : OCPPStatus) :
    (cp.updateAllConnectorsStatus st).1.error = cp.error := rfl


/-! ### Claim-level theorems -/

/-- Claim C1: the claim states that at most one heartbeat timer and one
auto-telemetry timer per connector are live, starting a duplicate always
cancelling the prior handle.  Evaluation at the failing input: after two
consecutive `startAutoMeterValue(1, 5, 10)` calls, TWO auto-telemetry
timers for connector 1 are live (the first handle was never cleared, only
overwritten in the map), refuting the claim for auto-telemetry; after two
consecutive `startHeartbeat` calls exactly one heartbeat timer is live, so
the heartbeat half of the claim does hold. -/
theorem spec_C1 :
    (cpC1twice.liveTimers.filter (fun t => t.kind == TimerKind.autoMeter 1)).length = 2
    ∧ cpC1twice.liveTimers.map (fun t => t.handle) = [1, 2]
    ∧ cpC1twice.autoMeterValueIntervals 1 = some 2
    ∧ (cpC1heart.liveTimers.filter (fun t => t.kind == TimerKind.heartbeat)).length = 1 := by
  decide

/-- Claim C2 counterexample: on a station whose connector 1 exists but
holds no transaction, `stopTransaction(1)` throws (the non-null assertion
dereferences null) instead of completing, refuting the claim that every
such call completes without raising. -/
theorem spec_C2_cex :
    (mkChargePoint "CP2" 1 none).getConnector 1 = some ({ id := 1 } : Connector)
    ∧ exceptIsOk ((mkChargePoint "CP2" 1 none).stopTransaction 1) = false := by
  decide

/-- Claim C2 (amended): `stopTransaction` degrades to a logged no-op only
for a MISSING connector id — it completes without raising, logs two errors
and leaves the state unchanged; the existing-connector-without-transaction
case throws instead. -/
theorem spec_C2 (cp : ChargePoint) (k : Nat) (h : cp.getConnector k = none) :
    cp.stopTransaction k = Except.ok (cp,
      [Event.logError ("Connector for id " ++ toString k ++ " not found"),
       Event.logError ("Connector " ++ toString k ++ " not found")]) := by
  simp [ChargePoint.stopTransaction, ChargePoint.updateConnectorStatus, h]

/-- Claim C2 witness: the amended theorem applied at a concrete station and
a missing connector id. -/
theorem spec_C2_witness :
    (mkChargePoint "CP2" 1 none).stopTransaction 2 = Except.ok (mkChargePoint "CP2" 1 none,
      [Event.logError ("Connector for id " ++ toString (2 : Nat) ++ " not found"),
       Event.logError ("Connector " ++ toString (2 : Nat) ++ " not found")]) :=
  spec_C2 (mkChargePoint "CP2" 1 none) 2 (by decide)

/-- Claim C3 counterexample: with `autoMeterValueSetting` null and a live
auto-telemetry timer on connector 1 holding an active transaction,
`stopTransaction(1)` leaves the timer live and registered — cleanup does
NOT cancel the auto-telemetry timer, refuting the unconditional
cancellation conjunct of the claim. -/
theorem spec_C3_cex :
    (exceptState (cpC3state.stopTransaction 1)).map
      (fun s => ((s.liveTimers.filter (fun t => t.kind == TimerKind.autoMeter 1)).length,
        s.autoMeterValueIntervals 1)) = some (1, some 1) := by
  decide

/-- Claim C3 (amended): for a connector holding an active transaction,
`stopTransaction` stamps a non-null `stopTime`, sets `meterStop` to the
connector's meter value, forwards the stop through MessageChannel, resets
`meterSent`, and leaves the connector `Available`; the connector's
registered auto-telemetry timer is cancelled during cleanup ONLY when
`autoMeterValueSetting` is non-null — when the setting is null the timer
map and the live timers are left untouched. -/
theorem spec_C3 (cp : ChargePoint) (k : Nat) (conn : Connector) (tx : Transaction)
    (hconn : cp.getConnector k = some conn) (htx : conn.transaction = some tx)
    (hmap : cp.autoMeterValueIntervals k ≠ some 0) :
    (exceptState (cp.stopTransaction k)).map (fun s => s.getConnector k) =
      some (some { conn with
        status := OCPPStatus.Available
        transaction := some { tx with
          stopTime := some cp.now
          meterStop := some conn.meterValue
          meterSent := false } })
    ∧ Event.stopTxSent (stoppedTransaction tx cp.now conn.meterValue) k
        ∈ (exceptEvents (cp.stopTransaction k)).getD []
    ∧ (cp.autoMeterValueSetting = none →
        (exceptState (cp.stopTransaction k)).map (fun s => s.liveTimers) =
          some cp.liveTimers
        ∧ (exceptState (cp.stopTransaction k)).map (fun s => s.autoMeterValueIntervals) =
            some cp.autoMeterValueIntervals)
    ∧ (cp.autoMeterValueSetting.isSome = true →
        (exceptState (cp.stopTransaction k)).map (fun s => s.autoMeterValueIntervals k) =
          some none) := by
  have hconn' := hconn
  unfold ChargePoint.getConnector at hconn'
  have h1 : (modifyConn cp.connectors k
      (setTransactionFn (stoppedTransaction tx cp.now conn.meterValue))).find?
      (fun c => c.id == k) =
      some { conn with transaction := some (stoppedTransaction tx cp.now conn.meterValue) } := by
    rw [find?_modifyConn _ k
      (setTransactionFn (stoppedTransaction tx cp.now conn.meterValue)) (fun c => rfl),
      hconn']
    rfl
  have h2 : (modifyConn (modifyConn cp.connectors k
      (setTransactionFn (stoppedTransaction tx cp.now conn.meterValue))) k
      clearMeterSent).find? (fun c => c.id == k) =
      some { conn with transaction := some { tx with
        stopTime := some cp.now
        meterStop := some conn.meterValue
        meterSent := false } } := by
    rw [find?_modifyConn _ k clearMeterSent (fun c => rfl), h1]
    rfl
  have h3 : (modifyConn (modifyConn (modifyConn cp.connectors k
      (setTransactionFn (stoppedTransaction tx cp.now conn.meterValue))) k
      clearMeterSent) k (setStatusFn OCPPStatus.Finishing)).find? (fun c => c.id == k) =
      some { conn with
        status := OCPPStatus.Finishing
        transaction := some { tx with
          stopTime := some cp.now
          meterStop := some conn.meterValue
          meterSent := false } } := by
    rw [find?_modifyConn _ k (setStatusFn OCPPStatus.Finishing) (fun c => rfl), h2]
    rfl
  have h4 : (modifyConn (modifyConn (modifyConn (modifyConn cp.connectors k
      (setTransactionFn (stoppedTransaction tx cp.now conn.meterValue))) k
      clearMeterSent) k (setStatusFn OCPPStatus.Finishing)) k
      (setStatusFn OCPPStatus.Available)).find? (fun c => c.id == k) =
      some { conn with
        status := OCPPStatus.Available
        transaction := some { tx with
          stopTime := some cp.now
          meterStop := some conn.meterValue
          meterSent := false } } := by
    rw [find?_modifyConn _ k (setStatusFn OCPPStatus.Available) (fun c => rfl), h3]
    rfl
  rcases hset : cp.autoMeterValueSetting with _ | s
  · refine ⟨?_, ?_, fun _ => ⟨?_, ?_⟩, fun hs => Bool.noConfusion hs⟩
    · simp [ChargePoint.stopTransaction, ChargePoint.getConnector, hconn', htx,
        ChargePoint.cleanTransaction, ChargePoint.updateConnectorStatus, writeStatus,
        hset, h1, h2, h3, h4, Option.isSome, exceptState, Option.map]
    · simp [ChargePoint.stopTransaction, ChargePoint.getConnector, hconn', htx,
        ChargePoint.cleanTransaction, ChargePoint.updateConnectorStatus, writeStatus,
        hset, h1, h2, h3, h4, Option.isSome, exceptEvents, Option.getD, stoppedTransaction]
    · simp [ChargePoint.stopTransaction, ChargePoint.getConnector, hconn', htx,
        ChargePoint.cleanTransaction, ChargePoint.updateConnectorStatus, writeStatus,
        hset, h1, h2, h3, h4, Option.isSome, exceptState, Option.map]
    · simp [ChargePoint.stopTransaction, ChargePoint.getConnector, hconn', htx,
        ChargePoint.cleanTransaction, ChargePoint.updateConnectorStatus, writeStatus,
        hset, h1, h2, h3, h4, Option.isSome, exceptState, Option.map]
  · rcases hl : cp.autoMeterValueIntervals k with _ | h
    · refine ⟨?_, ?_, fun hn => Option.noConfusion hn, fun _ => ?_⟩
      · simp [ChargePoint.stopTransaction, ChargePoint.getConnector, hconn', htx,
          ChargePoint.cleanTransaction, ChargePoint.updateConnectorStatus, writeStatus,
          hset, h1, h2, h3, h4, Option.isSome, ChargePoint.stopAutoMeterValue, hl,
          exceptState, Option.map]
      · simp [ChargePoint.stopTransaction, ChargePoint.getConnector, hconn', htx,
          ChargePoint.cleanTransaction, ChargePoint.updateConnectorStatus, writeStatus,
          hset, h1, h2, h3, h4, Option.isSome, ChargePoint.stopAutoMeterValue, hl,
          exceptEvents, Option.getD, stoppedTransaction]
      · simp [ChargePoint.stopTransaction, ChargePoint.getConnector, hconn', htx,
          ChargePoint.cleanTransaction, ChargePoint.updateConnectorStatus, writeStatus,
          hset, h1, h2, h3, h4, Option.isSome, ChargePoint.stopAutoMeterValue, hl,
          exceptState, Option.map]
    · have hne : h ≠ 0 := by
        intro h0
        apply hmap
        rw [hl, h0]
      refine ⟨?_, ?_, fun hn => Option.noConfusion hn, fun _ => ?_⟩
      · simp [ChargePoint.stopTransaction, ChargePoint.getConnector, hconn', htx,
          ChargePoint.cleanTransaction, ChargePoint.updateConnectorStatus, writeStatus,
          hset, h1, h2, h3, h4, Option.isSome, ChargePoint.stopAutoMeterValue, hl,
          if_pos hne, exceptState, Option.map]
      · simp [ChargePoint.stopTransaction, ChargePoint.getConnector, hconn', htx,
          ChargePoint.cleanTransaction, ChargePoint.updateConnectorStatus, writeStatus,
          hset, h1, h2, h3, h4, Option.isSome, ChargePoint.stopAutoMeterValue, hl,
          if_pos hne, exceptEvents, Option.getD, stoppedTransaction]
      · simp [ChargePoint.stopTransaction, ChargePoint.getConnector, hconn', htx,
          ChargePoint.cleanTransaction, ChargePoint.updateConnectorStatus, writeStatus,
          hset, h1, h2, h3, h4, Option.isSome, ChargePoint.stopAutoMeterValue, hl,
          if_pos hne, exceptState, Option.map]

/-- Claim C3 witness: the amended theorem applied to a station configured
for auto-telemetry, whose connector 1 holds an active transaction and a
registered timer; the timer registration is cleared by the stop. -/
theorem spec_C3_witness :
    (exceptState (cpW3state.stopTransaction 1)).map (fun s => s.autoMeterValueIntervals 1) =
      some none :=
  (spec_C3 cpW3state 1 connW3 (newTransaction "T" 1 0)
    (by decide) rfl (by decide)).2.2.2 (by decide)

/-- Claim C4: for an existing connector, `startTransaction(t, k)` attaches
a fresh transaction with id 0, the given tag, meterStart 0, null meterStop
and stopTime and meterSent false (replacing any prior one), forwards it
through MessageChannel, sets the connector to `Preparing`, and starts the
connector's auto-telemetry timer if and only if `autoMeterValueSetting` is
present with both interval and value non-zero. -/
theorem spec_C4 (cp : ChargePoint) (tagId : String) (k : Nat) (conn : Connector)
    (hconn : cp.getConnector k = some conn) :
    ((cp.startTransaction tagId k).1.getConnector k =
        some { conn with
          transaction := some (newTransaction tagId k cp.now)
          status := OCPPStatus.Preparing })
    ∧ Event.startTxSent (newTransaction tagId k cp.now) k ∈ (cp.startTransaction tagId k).2
    ∧ (autoCondition cp.autoMeterValueSetting →
        (cp.startTransaction tagId k).1.autoMeterValueIntervals k = some cp.nextHandle
        ∧ (cp.startTransaction tagId k).1.nextHandle = cp.nextHandle + 1
        ∧ ∃ t ∈ (cp.startTransaction tagId k).1.liveTimers,
            t.handle = cp.nextHandle ∧ t.kind = TimerKind.autoMeter k)
    ∧ (¬ autoCondition cp.autoMeterValueSetting →
        (cp.startTransaction tagId k).1.autoMeterValueIntervals = cp.autoMeterValueIntervals
        ∧ (cp.startTransaction tagId k).1.liveTimers = cp.liveTimers
        ∧ (cp.startTransaction tagId k).1.nextHandle = cp.nextHandle) := by
  have hconn' := hconn
  unfold ChargePoint.getConnector at hconn'
  have h1 : (modifyConn cp.connectors k
      (setTransactionFn (newTransaction tagId k cp.now))).find? (fun c => c.id == k) =
      some { conn with transaction := some (newTransaction tagId k cp.now) } := by
    rw [find?_modifyConn cp.connectors k
      (setTransactionFn (newTransaction tagId k cp.now)) (fun c => rfl), hconn']
    rfl
  have h2 : (writeStatus OCPPStatus.Preparing k (modifyConn cp.connectors k
      (setTransactionFn (newTransaction tagId k cp.now)))).find? (fun c => c.id == k) =
      some { conn with
        transaction := some (newTransaction tagId k cp.now)
        status := OCPPStatus.Preparing } := by
    unfold writeStatus
    rw [find?_modifyConn
      (modifyConn cp.connectors k (setTransactionFn (newTransaction tagId k cp.now))) k
      (setStatusFn OCPPStatus.Preparing) (fun c => rfl), h1]
    rfl
  rcases hset : cp.autoMeterValueSetting with _ | s
  · have hac : ¬ autoCondition (none : Option AutoMeterValueSetting) := fun hf => hf
    refine ⟨?_, ?_, fun hc => absurd hc hac, fun _ => ?_⟩
    · simp only [ChargePoint.startTransaction, ChargePoint.getConnector, hconn', hset,
        ChargePoint.updateConnectorStatus, h1]
      exact h2
    · simp only [ChargePoint.startTransaction, ChargePoint.getConnector, hconn', hset,
        ChargePoint.updateConnectorStatus, h1]
      simp
    · simp only [ChargePoint.startTransaction, ChargePoint.getConnector, hconn', hset,
        ChargePoint.updateConnectorStatus, h1]
      exact ⟨trivial, trivial, trivial⟩
  · by_cases hiv : s.interval ≠ 0 ∧ s.value ≠ 0
    · have hac : autoCondition (some s) := hiv
      refine ⟨?_, ?_, fun _ => ?_, fun hnc => absurd hac hnc⟩
      · simp only [ChargePoint.startTransaction, ChargePoint.getConnector, hconn', hset,
          ChargePoint.updateConnectorStatus, h1, if_pos hiv,
          ChargePoint.startAutoMeterValue]
        exact h2
      · simp only [ChargePoint.startTransaction, ChargePoint.getConnector, hconn', hset,
          ChargePoint.updateConnectorStatus, h1, if_pos hiv,
          ChargePoint.startAutoMeterValue]
        simp
      · simp only [ChargePoint.startTransaction, ChargePoint.getConnector, hconn', hset,
          ChargePoint.updateConnectorStatus, h1, if_pos hiv,
          ChargePoint.startAutoMeterValue]
        refine ⟨by simp, trivial, ?_⟩
        refine ⟨⟨cp.nextHandle, TimerKind.autoMeter k, s.interval * 1000, s.value⟩,
          ?_, rfl, rfl⟩
        simp
    · have hac : ¬ autoCondition (some s) := hiv
      refine ⟨?_, ?_, fun hc => absurd hc hac, fun _ => ?_⟩
      · simp only [ChargePoint.startTransaction, ChargePoint.getConnector, hconn', hset,
          ChargePoint.updateConnectorStatus, h1, if_neg hiv]
        exact h2
      · simp only [ChargePoint.startTransaction, ChargePoint.getConnector, hconn', hset,
          ChargePoint.updateConnectorStatus, h1, if_neg hiv]
        simp
      · simp only [ChargePoint.startTransaction, ChargePoint.getConnector, hconn', hset,
          ChargePoint.updateConnectorStatus, h1, if_neg hiv]
        exact ⟨trivial, trivial, trivial⟩

/-- Claim C4 witness: the theorem applied to a concrete station configured
with interval 5 and value 10; the timer is registered with the fresh
handle and the transaction is forwarded. -/
theorem spec_C4_witness :
    (cpW4state.startTransaction "TAG1" 1).1.autoMeterValueIntervals 1 = some 1
    ∧ Event.startTxSent (newTransaction "TAG1" 1 0) 1
        ∈ (cpW4state.startTransaction "TAG1" 1).2 := by
  have h := spec_C4 cpW4state "TAG1" 1 { id := 1 } (by decide)
  exact ⟨(h.2.2.1 (by decide)).1, h.2.1⟩

/-- Claim C5: the claim states that `updateAllConnectorsStatus` performs
exactly one status write and one notification per connector.  Evaluation
at the failing input (a two-connector station): the nested iteration of
the source performs THREE status writes per connector (N + 1), while
notifications are indeed one per connector. -/
theorem spec_C5 :
    ((cpC5pair.updateAllConnectorsStatus OCPPStatus.Available).2.filter
        (fun e => e == Event.connectorStatusWrite 1 OCPPStatus.Available)).length = 3
    ∧ ((cpC5pair.updateAllConnectorsStatus OCPPStatus.Available).2.filter
        (fun e => e == Event.connectorStatusWrite 2 OCPPStatus.Available)).length = 3
    ∧ ((cpC5pair.updateAllConnectorsStatus OCPPStatus.Available).2.filter
        (fun e => e == Event.statusNotificationSent 1 OCPPStatus.Available)).length = 1
    ∧ ((cpC5pair.updateAllConnectorsStatus OCPPStatus.Available).2.filter
        (fun e => e == Event.statusNotificationSent 2 OCPPStatus.Available)).length = 1
    ∧ cpC5pair.connectors.length = 2 := by
  decide

/-- Claim C6: when the transport close callback fires with code c and
reason r, the station status and every connector's status become
`Unavailable`; when c is not the sentinel 1005 the error field is set to a
message containing c and r; when c is 1005 the error field is unchanged. -/
theorem spec_C6 (cp : ChargePoint) (code : Nat) (reason : String) :
    (cp.closeHandler code reason).1.status = OCPPStatus.Unavailable
    ∧ (∀ c ∈ (cp.closeHandler code reason).1.connectors, c.status = OCPPStatus.Unavailable)
    ∧ (code ≠ 1005 → (cp.closeHandler code reason).1.error =
        "WebSocket closed code: " ++ toString code ++ " reason: " ++ reason)
    ∧ (code = 1005 → (cp.closeHandler code reason).1.error = cp.error) := by
  by_cases h : code = 1005
  · refine ⟨?_, ?_, fun hne => absurd h hne, fun _ => ?_⟩
    · simp [ChargePoint.closeHandler, h, setStatus_fst, updateAll_fst_status]
    · intro c hc
      simp only [ChargePoint.closeHandler, h, ne_eq, not_true_eq_false, if_false,
        setStatus_fst] at hc
      exact updateAll_all_status _ _ c hc
    · simp [ChargePoint.closeHandler, h, setStatus_fst, updateAll_fst_error]
  · refine ⟨?_, ?_, fun _ => ?_, fun heq => absurd heq h⟩
    · simp [ChargePoint.closeHandler, h, setStatus_fst, setError_fst, updateAll_fst_status]
    · intro c hc
      simp only [ChargePoint.closeHandler, h, ne_eq, not_false_eq_true, if_true,
        setStatus_fst, setError_fst] at hc
      exact updateAll_all_status _ _ c hc
    · simp [ChargePoint.closeHandler, h, setStatus_fst, setError_fst]

/-- Claim C6 witness: a sentinel-code close keeps the prior error, and a
non-sentinel close leaves the station `Unavailable`. -/
theorem spec_C6_witness :
    (cpW6state.closeHandler 1005 "bye").1.error = "prior"
    ∧ (cpW6state.closeHandler 1006 "bye").1.status = OCPPStatus.Unavailable :=
  ⟨(spec_C6 cpW6state 1005 "bye").2.2.2 rfl, (spec_C6 cpW6state 1006 "bye").1⟩

/-- Claim C7 counterexample: with a station-wide status subscriber
registered and the station `Available`, `disconnect` changes the status
field to `Unavailable` but invokes no status callback (it assigns the
backing field directly), refuting the claim that every status-changing
operation, disconnect included, triggers the subscriber. -/
theorem spec_C7_cex :
    cpC7state.hasStatusChangeCallback = true
    ∧ cpC7state.status = OCPPStatus.Available
    ∧ (cpC7state.disconnect).1.status = OCPPStatus.Unavailable
    ∧ (cpC7state.disconnect).2.filter Event.isStationStatusCallback = [] := by
  decide

/-- Claim C7 (amended): once registered, the station-wide status subscriber
is invoked with the new value on every mutation that goes through the
status setter — in particular by `boot` and by the close handler — but
`disconnect` assigns the backing field directly: it sets the status to
`Unavailable` without invoking the subscriber. -/
theorem spec_C7 (cp : ChargePoint) (st : OCPPStatus) (code : Nat) (reason : String)
    (h : cp.hasStatusChangeCallback = true) :
    Event.stationStatusCallback st ∈ (cp.setStatus st).2
    ∧ Event.stationStatusCallback OCPPStatus.Available ∈ (cp.boot).2
    ∧ Event.stationStatusCallback OCPPStatus.Unavailable ∈ (cp.closeHandler code reason).2
    ∧ (cp.disconnect).1.status = OCPPStatus.Unavailable
    ∧ (cp.disconnect).2.filter Event.isStationStatusCallback = [] := by
  refine ⟨?_, ?_, ?_, rfl, rfl⟩
  · simp [ChargePoint.setStatus, h]
  · simp [ChargePoint.boot, ChargePoint.setStatus, h]
  · by_cases hc : code = 1005 <;>
      simp [ChargePoint.closeHandler, ChargePoint.setStatus, hc, h]

/-- Claim C7 witness: the amended theorem applied to a concrete station
with a registered subscriber. -/
theorem spec_C7_witness :
    Event.stationStatusCallback OCPPStatus.Available ∈ (cpW7state.boot).2
    ∧ (cpW7state.disconnect).2.filter Event.isStationStatusCallback = [] :=
  ⟨(spec_C7 cpW7state OCPPStatus.Available 1006 "x" rfl).2.1,
   (spec_C7 cpW7state OCPPStatus.Available 1006 "x" rfl).2.2.2.2⟩

/-- Claim C8: `updateConnectorAvailability` on a missing connector logs,
returns false and invokes no callback; on an existing connector it records
the availability, forces the status (`Inoperative` → `Unavailable`,
`Operative` → `Available`), invokes the registered availability callback
exactly once with the new value, and returns true. -/
theorem spec_C8 (cp : ChargePoint) (k : Nat) (a : OCPPAvailability) :
    (cp.getConnector k = none →
      cp.updateConnectorAvailability k a =
        (false, cp, [Event.logError ("Connector " ++ toString k ++ " not found")]))
    ∧ (∀ conn, cp.getConnector k = some conn →
        (cp.updateConnectorAvailability k a).1 = true
        ∧ (cp.updateConnectorAvailability k a).2.1.getConnector k =
            some { conn with
              availability := a
              status := (match a with
                | OCPPAvailability.Inoperative => OCPPStatus.Unavailable
                | OCPPAvailability.Operative => OCPPStatus.Available) }
        ∧ ((cp.updateConnectorAvailability k a).2.2.filter Event.isAvailabilityCallback =
            if k ∈ cp.availabilityCallbackIds then [Event.availabilityCallback k a] else [])) := by
  constructor
  · intro h
    simp [ChargePoint.updateConnectorAvailability, h]
  · intro conn hconn
    unfold ChargePoint.getConnector at hconn
    have h1 : (modifyConn cp.connectors k (setAvailabilityFn a)).find?
        (fun c => c.id == k) = some { conn with availability := a } := by
      rw [find?_modifyConn cp.connectors k (setAvailabilityFn a) (fun c => rfl), hconn]
      rfl
    have h2 : ∀ st : OCPPStatus,
        (writeStatus st k (modifyConn cp.connectors k (setAvailabilityFn a))).find?
          (fun c => c.id == k) =
          some { conn with
            availability := a
            status := st } := by
      intro st
      unfold writeStatus
      rw [find?_modifyConn (modifyConn cp.connectors k (setAvailabilityFn a)) k
        (setStatusFn st) (fun c => rfl), h1]
      rfl
    cases a
    · simp only [ChargePoint.updateConnectorAvailability, ChargePoint.getConnector, hconn,
        ChargePoint.updateConnectorStatus, h1]
      refine ⟨trivial, ?_, ?_⟩
      · exact h2 OCPPStatus.Available
      · by_cases hm : k ∈ cp.availabilityCallbackIds <;>
          simp [hm, Event.isAvailabilityCallback]
    · simp only [ChargePoint.updateConnectorAvailability, ChargePoint.getConnector, hconn,
        ChargePoint.updateConnectorStatus, h1]
      refine ⟨trivial, ?_, ?_⟩
      · exact h2 OCPPStatus.Unavailable
      · by_cases hm : k ∈ cp.availabilityCallbackIds <;>
          simp [hm, Event.isAvailabilityCallback]

/-- Claim C8 witness: the theorem applied to a station with a registered
availability callback on connector 1 (success case) and to a missing
connector id 99 (failure case). -/
theorem spec_C8_witness :
    (cpW8state.updateConnectorAvailability 1 OCPPAvailability.Inoperative).1 = true
    ∧ (cpW8state.updateConnectorAvailability 1 OCPPAvailability.Inoperative).2.2.filter
        Event.isAvailabilityCallback =
        [Event.availabilityCallback 1 OCPPAvailability.Inoperative]
    ∧ (cpW8state.updateConnectorAvailability 99 OCPPAvailability.Inoperative).1 = false := by
  have h := (spec_C8 cpW8state 1 OCPPAvailability.Inoperative).2 { id := 1 } (by decide)
  have h99 := (spec_C8 cpW8state 99 OCPPAvailability.Inoperative).1 (by decide)
  refine ⟨h.1, h.2.2.trans (by decide), by rw [h99]⟩

/-- Claim C9: the telemetry generator in detailed format emits exactly one
Energy.Active.Import.Register reading, whose value is the meter value in
Wh, all other readings being fixed samples; in simple format the energy
reading is the meter value scaled to kWh (divided by 1000); the format
used is the engine's current `meterValueFormat` as set by
`setMeterValueFormat`, taking effect for all subsequent snapshots. -/
theorem spec_C9 (cp : ChargePoint) (m : Rat) (f : MeterValueFormat) :
    (cp.setMeterValueFormat f).generateDetailedMeterValues m =
        generateMeterValues f cp.now m
    ∧ ((generateMeterValues MeterValueFormat.detailed cp.now m).sampledValue.filter
        (fun v => v.measurand == Measurand.EnergyActiveImportRegister)) =
        [{ value := m
           measurand := Measurand.EnergyActiveImportRegister
           unit := some SVUnit.Wh
           location := some SVLocation.Outlet }]
    ∧ ((generateMeterValues MeterValueFormat.detailed cp.now m).sampledValue.filter
        (fun v => !(v.measurand == Measurand.EnergyActiveImportRegister))) =
        detailedFixedSamples
    ∧ ((generateMeterValues MeterValueFormat.simple cp.now m).sampledValue.filter
        (fun v => v.measurand == Measurand.EnergyActiveImportRegister)) =
        [{ value := m / 1000
           measurand := Measurand.EnergyActiveImportRegister
           unit := some SVUnit.kWh
           format := some SVFormat.Raw }] := by
  refine ⟨rfl, ?_, ?_, ?_⟩ <;> rfl

/-- Claim C10: when the engine was constructed with a null
`autoMeterValueSetting`, `cleanTransaction` — and therefore
`stopTransaction` — never cancels an auto-telemetry timer: a timer started
through the public `startAutoMeterValue` stays registered in the interval
map and stays live after the transaction is stopped. -/
theorem spec_C10 (cp : ChargePoint) (k : Nat) (i : Int) (v : Rat)
    (conn : Connector) (tx : Transaction)
    (hset : cp.autoMeterValueSetting = none)
    (hconn : cp.getConnector k = some conn) (htx : conn.transaction = some tx) :
    (exceptState ((cp.startAutoMeterValue k i v).1.stopTransaction k)).map
        (fun s => (s.liveTimers, s.autoMeterValueIntervals k)) =
      some ((cp.startAutoMeterValue k i v).1.liveTimers, some cp.nextHandle)
    ∧ ((cp.startAutoMeterValue k i v).1.cleanTransaction k).1.liveTimers =
        (cp.startAutoMeterValue k i v).1.liveTimers
    ∧ ((cp.startAutoMeterValue k i v).1.cleanTransaction k).1.autoMeterValueIntervals =
        (cp.startAutoMeterValue k i v).1.autoMeterValueIntervals
    ∧ ({ handle := cp.nextHandle, kind := TimerKind.autoMeter k, periodMs := i * 1000,
         step := v } : Timer) ∈ (cp.startAutoMeterValue k i v).1.liveTimers := by
  have hconn' := hconn
  unfold ChargePoint.getConnector at hconn'
  have h1 : (modifyConn cp.connectors k
      (setTransactionFn (stoppedTransaction tx cp.now conn.meterValue))).find?
      (fun c => c.id == k) =
      some { conn with transaction := some (stoppedTransaction tx cp.now conn.meterValue) } := by
    rw [find?_modifyConn _ k
      (setTransactionFn (stoppedTransaction tx cp.now conn.meterValue)) (fun c => rfl),
      hconn']
    rfl
  have h2 : (modifyConn (modifyConn cp.connectors k
      (setTransactionFn (stoppedTransaction tx cp.now conn.meterValue))) k
      clearMeterSent).find? (fun c => c.id == k) =
      some { conn with transaction := some { tx with
        stopTime := some cp.now
        meterStop := some conn.meterValue
        meterSent := false } } := by
    rw [find?_modifyConn _ k clearMeterSent (fun c => rfl), h1]
    rfl
  have h3 : (modifyConn (modifyConn (modifyConn cp.connectors k
      (setTransactionFn (stoppedTransaction tx cp.now conn.meterValue))) k
      clearMeterSent) k (setStatusFn OCPPStatus.Finishing)).find? (fun c => c.id == k) =
      some { conn with
        status := OCPPStatus.Finishing
        transaction := some { tx with
          stopTime := some cp.now
          meterStop := some conn.meterValue
          meterSent := false } } := by
    rw [find?_modifyConn _ k (setStatusFn OCPPStatus.Finishing) (fun c => rfl), h2]
    rfl
  have h1c : (modifyConn cp.connectors k clearMeterSent).find? (fun c => c.id == k) =
      some (clearMeterSent conn) := by
    rw [find?_modifyConn _ k clearMeterSent (fun c => rfl), hconn']
    rfl
  refine ⟨?_, ?_, ?_, ?_⟩
  · simp [ChargePoint.startAutoMeterValue, ChargePoint.stopTransaction,
      ChargePoint.getConnector, hconn', htx, ChargePoint.cleanTransaction,
      ChargePoint.updateConnectorStatus, writeStatus, hset, h1, h2, h3,
      Option.isSome, exceptState, Option.map]
  · simp [ChargePoint.startAutoMeterValue, ChargePoint.cleanTransaction,
      ChargePoint.getConnector, hconn', htx, ChargePoint.updateConnectorStatus,
      writeStatus, hset, h1c, Option.isSome]
  · simp [ChargePoint.startAutoMeterValue, ChargePoint.cleanTransaction,
      ChargePoint.getConnector, hconn', htx, ChargePoint.updateConnectorStatus,
      writeStatus, hset, h1c, Option.isSome]
  · simp [ChargePoint.startAutoMeterValue]

/-- Claim C10 witness: the theorem applied to a concrete station with a
null setting whose connector 1 holds a transaction; the timer survives the
stop, registered under its handle. -/
theorem spec_C10_witness :
    ({ handle := 1, kind := TimerKind.autoMeter 1, periodMs := 5000, step := 10 } : Timer)
      ∈ (cpW10state.startAutoMeterValue 1 5 10).1.liveTimers
    ∧ (exceptState ((cpW10state.startAutoMeterValue 1 5 10).1.stopTransaction 1)).map
        (fun s => (s.liveTimers, s.autoMeterValueIntervals 1)) =
      some ((cpW10state.startAutoMeterValue 1 5 10).1.liveTimers, some 1) := by
  have h := spec_C10 cpW10state 1 5 10 connW10 (newTransaction "T" 1 0)
    (by decide) (by decide) rfl
  exact ⟨h.2.2.2, h.1⟩

end OcppSim
